import Mathlib

/-!
Verification of the Jira search normalizer and JQL composer of this
repository against its specification.

The normalizer (`JiraSearchResult.from_api_response` in
`src/mcp_atlassian/models/jira/search.py`) is embedded over a model of
Python values (`PyVal`).  The JQL composer lives in
`mcp_atlassian/jira/search.py`, which is not part of this excerpt (only
its tests are); it is modelled from the spec (section 4.2) where noted.
-/

/-- Model of the Python values a Jira API response can contain.
Floats are not modelled (no claim involves them). -/
inductive PyVal where
  | none
  | bool (b : Bool)
  | int (n : Int)
  | str (s : String)
  | list (xs : List PyVal)
  | dict (kvs : List (String × PyVal))

/-- The `v is None` identity test of Python. -/
def PyVal.isNoneVal : PyVal → Bool
  | PyVal.none => true
  | _ => false

/-- Python truthiness (`bool(v)`): `None`, `False`, `0`, `""`, `[]`, `{}`
are falsy; everything else is truthy. -/
def truthy : PyVal → Bool
  | PyVal.none => false
  | PyVal.bool b => b
  | PyVal.int n => n != 0
  | PyVal.str s => s != ""
  | PyVal.list xs => !xs.isEmpty
  | PyVal.dict kvs => !kvs.isEmpty

/-- Key lookup in a dict, modelling presence/absence: `Option.none` means
the key is absent (`k in d` is false).  Python dict keys are unique, so
first-match lookup is faithful. -/
def lookupKey : List (String × PyVal) → String → Option PyVal
  | [], _ => Option.none
  | (k, v) :: rest, key => if k = key then some v else lookupKey rest key

/-- `d.get(key)`: the value when present, Python `None` when absent. -/
def pyGet (kvs : List (String × PyVal)) (key : String) : PyVal :=
  (lookupKey kvs key).getD PyVal.none

/-- Drop leading whitespace characters of a character list. -/
def dropLeadingSpaces : List Char → List Char
  | [] => []
  | c :: cs => if c.isWhitespace then dropLeadingSpaces cs else c :: cs

/-- Decimal value of a nonempty all-digit character list; `Option.none`
otherwise. -/
def digitsVal (cs : List Char) : Option Nat :=
  if cs.isEmpty then Option.none
  else if cs.all Char.isDigit then
    some (cs.foldl (fun acc c => acc * 10 + (c.toNat - 48)) 0)
  else Option.none

/-- Python `int(s)` on a string: strip surrounding whitespace, optional
sign, decimal digits; `ValueError` (here `Option.none`) otherwise.
Underscore digit separators of Python numeric literals are not modelled
(no claim involves them). -/
def pyStrToInt (s : String) : Option Int :=
  let cs := (dropLeadingSpaces (dropLeadingSpaces s.data).reverse).reverse
  match cs with
  | '-' :: rest => (digitsVal rest).map (fun n => -(n : Int))
  | '+' :: rest => (digitsVal rest).map (fun n => (n : Int))
  | rest => (digitsVal rest).map (fun n => (n : Int))

/-- Python `int(v)` coercion: `Option.none` models `ValueError`/`TypeError`.
`bool` is an `int` subclass (`int(True) = 1`). -/
def pyInt : PyVal → Option Int
  | PyVal.int n => some n
  | PyVal.bool b => some (if b then 1 else 0)
  | PyVal.str s => pyStrToInt s
  | _ => Option.none

/-- The external `JiraIssue` collaborator, kept abstract: the normalizer
either builds a minimal issue from a bare key string (`JiraIssue(key=...)`)
or delegates the element to `JiraIssue.from_api_response(data,
requested_fields=...)`.  We record which constructor was invoked with
which data; the issue internals are outside this excerpt. -/
inductive JiraIssue where
  | minimal (key : String)
  | fromResponse (data : PyVal) (requestedFields : Option PyVal)

/-- One element of the `"issues"` list: a bare string becomes a minimal
issue, anything else is forwarded to the issue factory. -/
def convertIssue (requestedFields : Option PyVal) (v : PyVal) : JiraIssue :=
  match v with
  | PyVal.str s => JiraIssue.minimal s
  | _ => JiraIssue.fromResponse v requestedFields

/-- The `for issue_data in issues_data: if issue_data: ...` loop of
`from_api_response`: falsy elements are skipped, others converted in
order. -/
def extractIssuesList (requestedFields : Option PyVal) : List PyVal → List JiraIssue
  | [] => []
  | x :: xs =>
    if truthy x then convertIssue requestedFields x :: extractIssuesList requestedFields xs
    else extractIssuesList requestedFields xs

/-- `issues_data = data.get("issues", [])`, then the loop runs only when
`isinstance(issues_data, list)`. -/
def extractIssues (kvs : List (String × PyVal)) (requestedFields : Option PyVal) :
    List JiraIssue :=
  match (lookupKey kvs "issues").getD (PyVal.list []) with
  | PyVal.list xs => extractIssuesList requestedFields xs
  | _ => []

/-- The `total` computation of `from_api_response` (lines 69-82): when
`data.get("total")` is `None` and `"isLast" in data`, infer the total
from `data.get("isLast", False)` truthiness; otherwise coerce, with `-1`
on absence or coercion failure. -/
def computeTotal (kvs : List (String × PyVal)) (issuesLen : Nat) : Int :=
  let rawTotal := pyGet kvs "total"
  if rawTotal.isNoneVal && (lookupKey kvs "isLast").isSome then
    if truthy ((lookupKey kvs "isLast").getD (PyVal.bool false)) then (issuesLen : Int)
    else -1
  else
    if rawTotal.isNoneVal then -1 else (pyInt rawTotal).getD (-1)

/-- `start_at = int(raw_start_at) if raw_start_at is not None else 0`,
with `0` on `ValueError`/`TypeError`. -/
def computeStartAt (kvs : List (String × PyVal)) : Int :=
  let rawStartAt := pyGet kvs "startAt"
  if rawStartAt.isNoneVal then 0 else (pyInt rawStartAt).getD 0

/-- `max_results = int(raw_max_results) if raw_max_results is not None
else -1`, with `-1` on `ValueError`/`TypeError`. -/
def computeMaxResults (kvs : List (String × PyVal)) : Int :=
  let rawMaxResults := pyGet kvs "maxResults"
  if rawMaxResults.isNoneVal then -1 else (pyInt rawMaxResults).getD (-1)

/-- The model of a Jira search (JQL) result, mirroring `JiraSearchResult`. -/
structure JiraSearchResult where
  total : Int := 0
  start_at : Int := 0
  max_results : Int := 0
  issues : List JiraIssue := []

/-- `JiraSearchResult.from_api_response(data, **kwargs)`: falsy or
non-dict input yields the default instance (the non-dict case is also
logged at debug level in the source, a side effect outside this value
model); otherwise issues are extracted and the pagination fields parsed
with fallback defaults. -/
def JiraSearchResult.from_api_response (data : PyVal) (requestedFields : Option PyVal) :
    JiraSearchResult :=
  if truthy data = false then {}
  else
    match data with
    | PyVal.dict kvs =>
      let issues := extractIssues kvs requestedFields
      { total := computeTotal kvs issues.length
        start_at := computeStartAt kvs
        max_results := computeMaxResults kvs
        issues := issues }
    | _ => {}

/-- Is the value a Python dict? (`isinstance(data, dict)`). -/
def isDict : PyVal → Bool
  | PyVal.dict _ => true
  | _ => false

/-- Does `pat` occur at the start of `cs`? -/
def strStartsWith : List Char → List Char → Bool
  | [], _ => true
  | _ :: _, [] => false
  | p :: ps, c :: cs => p = c && strStartsWith ps cs

/-- Does `pat` occur anywhere in `cs`? -/
def hasSub (pat : List Char) : List Char → Bool
  | [] => strStartsWith pat []
  | c :: cs => strStartsWith pat (c :: cs) || hasSub pat cs

/-- Modelled from the spec: the `ORDER BY` detection of the Query
Composer (`mcp_atlassian/jira/search.py`, not in this excerpt) —
case-insensitive and tolerant of leading whitespace, on character
lists. -/
def isOrderByChars (cs : List Char) : Bool :=
  strStartsWith "ORDER BY".data ((dropLeadingSpaces cs).map Char.toUpper)

/-- Modelled from the spec: the `ORDER BY` detection on the query
string. -/
def isOrderByQuery (query : String) : Bool :=
  isOrderByChars query.data

/-- Modelled from the spec: a project key is wrapped in double quotes in
the generated predicate. -/
def quoteKey (k : String) : String := "\"" ++ k ++ "\""

/-- Modelled from the spec: the project-scoping predicate —
`project = "K"` for a single key, `project IN ("K1", "K2", ...)` for
several. -/
def projectClause (ks : List String) : String :=
  match ks with
  | [k] => "project = " ++ quoteKey k
  | _ => "project IN (" ++ String.intercalate ", " (ks.map quoteKey) ++ ")"

/-- Modelled from the spec: the Query Composer
(`compose(query, project_keys) -> string` of spec section 4.2; the
source lives in `mcp_atlassian/jira/search.py`, outside this excerpt).
No keys: query unchanged.  Empty query: the bare predicate.  `ORDER
BY`-led query: predicate, a space, then the query verbatim.  Otherwise:
`(query) AND predicate`. -/
def compose (query : String) (projectKeys : List String) : String :=
  if projectKeys.isEmpty then query
  else if query = "" then projectClause projectKeys
  else if isOrderByQuery query then projectClause projectKeys ++ " " ++ query
  else "(" ++ query ++ ") AND " ++ projectClause projectKeys

/-- Modelled from the spec: the caller-level precedence test of
`search_issues` — whether the free-form query already contains a project
predicate (detected as the substring `project`), in which case no
project-filter injection is attempted. -/
def queryHasProjectPredicate (query : String) : Bool :=
  hasSub "project".data query.data

/-- Modelled from the spec: the caller-level JQL construction of
`search_issues` (source outside this excerpt) — a query that already
contains a project predicate is passed through verbatim with the
projects filter ignored; otherwise the Composer injects the filter. -/
def search_issues_jql (query : String) (projectKeys : List String) : String :=
  if queryHasProjectPredicate query then query
  else compose query projectKeys

/-! ## Helper lemmas -/

/-- Two strings with equal character data are equal. -/
lemma stringExt (a b : String) (h : a.data = b.data) : a = b := by
  cases a; cases b; exact congrArg String.mk h

/-- A successful lookup means the dict is nonempty. -/
lemma lookupKey_ne_nil {kvs : List (String × PyVal)} {k : String} {v : PyVal}
    (h : lookupKey kvs k = some v) : kvs ≠ [] := by
  intro hnil
  subst hnil
  exact Option.noConfusion h

/-- On a nonempty dict, `from_api_response` builds the record from the
issue extraction and the three pagination computations. -/
lemma from_api_response_dict (kvs : List (String × PyVal)) (rf : Option PyVal)
    (h : kvs ≠ []) :
    JiraSearchResult.from_api_response (PyVal.dict kvs) rf =
      { total := computeTotal kvs (extractIssues kvs rf).length
        start_at := computeStartAt kvs
        max_results := computeMaxResults kvs
        issues := extractIssues kvs rf } := by
  cases kvs with
  | nil => exact absurd rfl h
  | cons p rest => rfl

/-- The extraction loop keeps exactly the truthy elements, in order. -/
lemma extractIssuesList_eq (rf : Option PyVal) (xs : List PyVal) :
    extractIssuesList rf xs = (xs.filter truthy).map (convertIssue rf) := by
  induction xs with
  | nil => rfl
  | cons x xs ih =>
    by_cases hx : truthy x = true
    · simp [extractIssuesList, List.filter, hx, ih]
    · simp at hx
      simp [extractIssuesList, List.filter, hx, ih]

/-- A pattern occurs at the start of itself followed by anything. -/
lemma strStartsWith_append_self (p t : List Char) : strStartsWith p (p ++ t) = true := by
  induction p with
  | nil => rfl
  | cons c cs ih => simp [strStartsWith, ih]

/-- `Char.toUpper` fixes the four whitespace characters. -/
lemma whitespace_toUpper_fix (c : Char) (h : c.isWhitespace = true) :
    Char.toUpper c = c := by
  simp only [Char.isWhitespace, Bool.or_eq_true, decide_eq_true_eq] at h
  rcases h with ((h | h) | h) | h <;> subst h <;> decide

/-- `ORDER BY` detection ignores one leading whitespace character (hence,
by iteration, any leading whitespace). -/
lemma isOrderByChars_cons_ws (c : Char) (cs : List Char) (h : c.isWhitespace = true) :
    isOrderByChars (c :: cs) = isOrderByChars cs := by
  simp [isOrderByChars, dropLeadingSpaces, h]

/-- Any character sequence whose uppercase image is `ORDER BY`, followed
by anything, is detected. -/
lemma isOrderByChars_of_map_upper (c : Char) (cs rest : List Char)
    (h : (c :: cs).map Char.toUpper = "ORDER BY".data) :
    isOrderByChars (c :: cs ++ rest) = true := by
  rw [List.map_cons] at h
  have hd : "ORDER BY".data = ['O', 'R', 'D', 'E', 'R', ' ', 'B', 'Y'] := rfl
  rw [hd] at h
  injection h with h1 h2
  have hws : c.isWhitespace = false := by
    cases hw : c.isWhitespace
    · rfl
    · exfalso
      have := whitespace_toUpper_fix c hw
      rw [this] at h1
      subst h1
      simp at hw
  have hdrop : dropLeadingSpaces (c :: (cs ++ rest)) = c :: (cs ++ rest) := by
    simp [dropLeadingSpaces, hws]
  rw [isOrderByChars, List.cons_append, hdrop]
  have hmap : (c :: (cs ++ rest)).map Char.toUpper =
      "ORDER BY".data ++ rest.map Char.toUpper := by
    simp [List.map_cons, List.map_append, h1, h2, hd]
  rw [hmap]
  exact strStartsWith_append_self _ _

/-! ## Claim theorems -/

/-- C1: for a raw response whose dict has no `total` key but has an
`isLast` key holding a boolean, the normalized `total` is the number of
issue records actually returned when `isLast` is true, and `-1` when
`isLast` is false. -/
theorem c1_isLast_total (kvs : List (String × PyVal)) (rf : Option PyVal) (b : Bool)
    (htot : lookupKey kvs "total" = Option.none)
    (hlast : lookupKey kvs "isLast" = some (PyVal.bool b)) :
    (JiraSearchResult.from_api_response (PyVal.dict kvs) rf).total =
      if b then
        ((JiraSearchResult.from_api_response (PyVal.dict kvs) rf).issues.length : Int)
      else -1 := by
  have hne : kvs ≠ [] := lookupKey_ne_nil hlast
  rw [from_api_response_dict kvs rf hne]
  simp [computeTotal, pyGet, htot, hlast, truthy, PyVal.isNoneVal]

/-- C1 witness: `{"isLast": true, "issues": ["A"]}` normalizes with
`total` equal to the issue count. -/
theorem c1_isLast_total_witness :
    (JiraSearchResult.from_api_response
        (PyVal.dict [("isLast", PyVal.bool true), ("issues", PyVal.list [PyVal.str "A"])])
        Option.none).total =
      if true then
        ((JiraSearchResult.from_api_response
            (PyVal.dict [("isLast", PyVal.bool true),
                         ("issues", PyVal.list [PyVal.str "A"])])
            Option.none).issues.length : Int)
      else -1 :=
  c1_isLast_total [("isLast", PyVal.bool true), ("issues", PyVal.list [PyVal.str "A"])]
    Option.none true rfl rfl

/-- C2 counterexample: at `{"isLast": true}` the `total` field is absent
from the raw response, yet the normalized `total` is `0` (the issue
count inferred from `isLast`), not the documented default `-1` the claim
asserts for every absent `total`. -/
theorem c2_total_counterexample :
    lookupKey [("isLast", PyVal.bool true)] "total" = Option.none ∧
    (JiraSearchResult.from_api_response (PyVal.dict [("isLast", PyVal.bool true)])
        Option.none).total = 0 ∧
    (JiraSearchResult.from_api_response (PyVal.dict [("isLast", PyVal.bool true)])
        Option.none).total ≠ -1 :=
  ⟨rfl, rfl, by decide⟩

/-- C2 (amended): integer coercion of the three pagination fields never
propagates an exception; on coercion failure or absence (including a
`None` value), `start_at` falls back to `0` and `max_results` to `-1`
unconditionally, and `total` falls back to `-1` except when the
`isLast`-inference branch applies (`total` absent or `None` while an
`isLast` key is present). -/
theorem c2_coercion_fallback (kvs : List (String × PyVal)) (rf : Option PyVal)
    (hne : kvs ≠ []) :
    (¬((pyGet kvs "total").isNoneVal = true ∧ (lookupKey kvs "isLast").isSome = true) →
        pyInt (pyGet kvs "total") = Option.none →
        (JiraSearchResult.from_api_response (PyVal.dict kvs) rf).total = -1) ∧
    (pyInt (pyGet kvs "startAt") = Option.none →
        (JiraSearchResult.from_api_response (PyVal.dict kvs) rf).start_at = 0) ∧
    (pyInt (pyGet kvs "maxResults") = Option.none →
        (JiraSearchResult.from_api_response (PyVal.dict kvs) rf).max_results = -1) := by
  rw [from_api_response_dict kvs rf hne]
  refine ⟨?_, ?_, ?_⟩
  · intro hbranch hconv
    simp only [computeTotal]
    rw [if_neg]
    · split
      · rfl
      · simp [hconv]
    · simp only [Bool.and_eq_true, Option.isSome]
      intro hcontra
      exact hbranch ⟨hcontra.1, hcontra.2⟩
  · intro hconv
    simp only [computeStartAt]
    split
    · rfl
    · simp [hconv]
  · intro hconv
    simp only [computeMaxResults]
    split
    · rfl
    · simp [hconv]

/-- C2 witness: `{"total": "x", "startAt": None, "maxResults": []}`
normalizes to the fallback defaults `(-1, 0, -1)`. -/
theorem c2_coercion_fallback_witness :
    (JiraSearchResult.from_api_response
        (PyVal.dict [("total", PyVal.str "x"), ("startAt", PyVal.none),
                     ("maxResults", PyVal.list [])]) Option.none).total = -1 ∧
    (JiraSearchResult.from_api_response
        (PyVal.dict [("total", PyVal.str "x"), ("startAt", PyVal.none),
                     ("maxResults", PyVal.list [])]) Option.none).start_at = 0 ∧
    (JiraSearchResult.from_api_response
        (PyVal.dict [("total", PyVal.str "x"), ("startAt", PyVal.none),
                     ("maxResults", PyVal.list [])]) Option.none).max_results = -1 := by
  have h := c2_coercion_fallback
    [("total", PyVal.str "x"), ("startAt", PyVal.none), ("maxResults", PyVal.list [])]
    Option.none (List.cons_ne_nil _ _)
  exact ⟨h.1 (by decide) rfl, h.2.1 rfl, h.2.2 rfl⟩

/-- C3: with a non-empty key list, a non-empty query not starting with
`ORDER BY` composes to `(query) AND predicate`; an empty query composes
to the bare predicate (no `AND`, no parentheses); the predicate is
`project = "K"` for one key and `project IN ("K1", "K2", ...)` for
several. -/
theorem c3_compose_with_projects (q : String) (ks : List String) (hks : ks ≠ []) :
    (q ≠ "" → isOrderByQuery q = false →
        compose q ks = "(" ++ q ++ ") AND " ++ projectClause ks) ∧
    (compose "" ks = projectClause ks) ∧
    (∀ k : String, projectClause [k] = "project = \"" ++ k ++ "\"") ∧
    (∀ k₁ k₂ : String, projectClause [k₁, k₂] =
        "project IN (\"" ++ k₁ ++ "\", \"" ++ k₂ ++ "\")") := by
  refine ⟨?_, ?_, ?_, ?_⟩
  · intro hq hob
    cases ks with
    | nil => exact absurd rfl hks
    | cons k kt => simp [compose, hq, hob]
  · cases ks with
    | nil => exact absurd rfl hks
    | cons k kt => simp [compose]
  · intro k
    apply stringExt
    simp [projectClause, quoteKey, String.data_append]
  · intro k₁ k₂
    apply stringExt
    simp [projectClause, quoteKey, String.data_append, String.intercalate,
      String.intercalate.go]

/-- C3 witness: the spec's Example 2 and Example 4 instances. -/
theorem c3_compose_with_projects_witness :
    compose "text ~ test" ["TEST"] = "(text ~ test) AND project = \"TEST\"" ∧
    compose "" ["PROJ1"] = "project = \"PROJ1\"" := by
  have h1 := c3_compose_with_projects "text ~ test" ["TEST"] (List.cons_ne_nil _ _)
  have h2 := c3_compose_with_projects "" ["PROJ1"] (List.cons_ne_nil _ _)
  constructor
  · rw [h1.1 (by decide) (by decide)]
    rfl
  · rw [h2.2.1]
    rfl

/-- C4: an `ORDER BY`-led query composed with a non-empty key list
yields the project predicate followed by a space and the original query
verbatim (whitespace and casing preserved); detection is the
char-level test `isOrderByChars` on the query's data, it accepts any
casing whose uppercase image is `ORDER BY`, and it is invariant under
leading whitespace. -/
theorem c4_compose_order_by (q : String) (ks : List String) :
    (ks ≠ [] → isOrderByQuery q = true →
        compose q ks = projectClause ks ++ " " ++ q) ∧
    (∀ s : String, isOrderByQuery s = isOrderByChars s.data) ∧
    (∀ (c : Char) (cs rest : List Char),
        (c :: cs).map Char.toUpper = "ORDER BY".data →
        isOrderByChars (c :: cs ++ rest) = true) ∧
    (∀ (c : Char) (cs : List Char), c.isWhitespace = true →
        isOrderByChars (c :: cs) = isOrderByChars cs) := by
  refine ⟨?_, fun _ => rfl, isOrderByChars_of_map_upper, isOrderByChars_cons_ws⟩
  intro hks hob
  have hq : q ≠ "" := by
    intro hq
    subst hq
    exact absurd hob (by decide)
  cases ks with
  | nil => exact absurd rfl hks
  | cons k kt => simp [compose, hq, hob]

/-- C4 witness: a lower-case `order by` query with leading whitespace is
detected and appended verbatim after the predicate. -/
theorem c4_compose_order_by_witness :
    compose "  order by priority DESC" ["PROJ1"] =
      "project = \"PROJ1\"   order by priority DESC" := by
  have h := c4_compose_order_by "  order by priority DESC" ["PROJ1"]
  rw [h.1 (List.cons_ne_nil _ _) (by decide)]
  rfl

/-- C5: an empty (Python-falsy, including `None`) or non-mapping raw
input normalizes to the zero-valued result without raising; the source
additionally logs the non-mapping case at debug level, a side effect
outside this value model. -/
theorem c5_default_on_empty_or_non_mapping (d : PyVal) (rf : Option PyVal)
    (h : truthy d = false ∨ isDict d = false) :
    JiraSearchResult.from_api_response d rf =
      { total := 0, start_at := 0, max_results := 0, issues := [] } := by
  cases h with
  | inl h => simp [JiraSearchResult.from_api_response, h]
  | inr h =>
    cases d with
    | dict kvs => simp [isDict] at h
    | none => rfl
    | bool b => simp [JiraSearchResult.from_api_response]
    | int n => simp [JiraSearchResult.from_api_response]
    | str s => simp [JiraSearchResult.from_api_response]
    | list xs => simp [JiraSearchResult.from_api_response]

/-- C5 witness: a `None` raw response yields the zero-valued result. -/
theorem c5_default_on_empty_or_non_mapping_witness :
    JiraSearchResult.from_api_response PyVal.none Option.none =
      { total := 0, start_at := 0, max_results := 0, issues := [] } :=
  c5_default_on_empty_or_non_mapping PyVal.none Option.none (Or.inl rfl)

/-- C6: composing with zero project keys returns the input query
unchanged, for every input string. -/
theorem c6_compose_no_keys_identity (q : String) : compose q [] = q := rfl

/-- C7: when the free-form query already contains a project predicate,
the caller-level construction passes the query through verbatim and
ignores the projects filter entirely; otherwise it delegates to the
Composer. -/
theorem c7_existing_predicate_priority (q : String) (ks : List String) :
    (queryHasProjectPredicate q = true → search_issues_jql q ks = q) ∧
    (queryHasProjectPredicate q = false → search_issues_jql q ks = compose q ks) := by
  constructor
  · intro h
    simp [search_issues_jql, h]
  · intro h
    simp [search_issues_jql, h]

/-- C7 witness: the query `project = OTHER` with filter key `TEST` is
passed through verbatim. -/
theorem c7_existing_predicate_priority_witness :
    search_issues_jql "project = OTHER" ["TEST"] = "project = OTHER" :=
  (c7_existing_predicate_priority "project = OTHER" ["TEST"]).1 (by decide)

/-- C8: the normalizer and the composer are deterministic — equal inputs
give equal outputs.  Both are total pure functions in this embedding,
faithful to the source, which only constructs new values (the sole side
effect, a debug log on the non-mapping branch, is outside the value
model). -/
theorem c8_deterministic (d₁ d₂ : PyVal) (rf₁ rf₂ : Option PyVal)
    (q₁ q₂ : String) (ks₁ ks₂ : List String)
    (hd : d₁ = d₂) (hrf : rf₁ = rf₂) (hq : q₁ = q₂) (hks : ks₁ = ks₂) :
    JiraSearchResult.from_api_response d₁ rf₁ =
        JiraSearchResult.from_api_response d₂ rf₂ ∧
    compose q₁ ks₁ = compose q₂ ks₂ := by
  subst hd
  subst hrf
  subst hq
  subst hks
  exact ⟨rfl, rfl⟩

/-- C8 witness: determinism at a concrete input pair. -/
theorem c8_deterministic_witness :
    JiraSearchResult.from_api_response (PyVal.dict [("isLast", PyVal.bool true)])
        Option.none =
      JiraSearchResult.from_api_response (PyVal.dict [("isLast", PyVal.bool true)])
        Option.none ∧
    compose "a" ["K"] = compose "a" ["K"] :=
  c8_deterministic _ _ _ _ _ _ _ _ rfl rfl rfl rfl

/-- C9: when the raw `"issues"` value is a list, falsy elements are
silently skipped — the normalized issues are exactly the truthy elements
converted in input order — so the issue count never exceeds the raw list
length, and a `total` inferred from a truthy `isLast` counts only the
retained elements. -/
theorem c9_falsy_elements_skipped (kvs : List (String × PyVal)) (rf : Option PyVal)
    (xs : List PyVal) (hiss : lookupKey kvs "issues" = some (PyVal.list xs)) :
    (JiraSearchResult.from_api_response (PyVal.dict kvs) rf).issues =
        (xs.filter truthy).map (convertIssue rf) ∧
    (JiraSearchResult.from_api_response (PyVal.dict kvs) rf).issues.length ≤
        xs.length ∧
    ((pyGet kvs "total").isNoneVal = true →
      (lookupKey kvs "isLast").isSome = true →
      truthy ((lookupKey kvs "isLast").getD (PyVal.bool false)) = true →
      (JiraSearchResult.from_api_response (PyVal.dict kvs) rf).total =
        ((xs.filter truthy).length : Int)) := by
  have hne : kvs ≠ [] := lookupKey_ne_nil hiss
  rw [from_api_response_dict kvs rf hne]
  have hext : extractIssues kvs rf = (xs.filter truthy).map (convertIssue rf) := by
    simp [extractIssues, hiss, extractIssuesList_eq]
  refine ⟨hext, ?_, ?_⟩
  · rw [hext]
    simp only [List.length_map]
    exact List.length_filter_le truthy xs
  · intro h1 h2 h3
    simp [computeTotal, h1, h2, h3, hext]

/-- C9 witness: of `["A", None, ""]` only `"A"` is retained, and the
`isLast`-inferred total is `1`, strictly fewer than the raw length 3. -/
theorem c9_falsy_elements_skipped_witness :
    (JiraSearchResult.from_api_response
        (PyVal.dict [("issues", PyVal.list [PyVal.str "A", PyVal.none, PyVal.str ""]),
                     ("isLast", PyVal.bool true)]) Option.none).issues.length = 1 ∧
    (JiraSearchResult.from_api_response
        (PyVal.dict [("issues", PyVal.list [PyVal.str "A", PyVal.none, PyVal.str ""]),
                     ("isLast", PyVal.bool true)]) Option.none).total = 1 := by
  have h := c9_falsy_elements_skipped
    [("issues", PyVal.list [PyVal.str "A", PyVal.none, PyVal.str ""]),
     ("isLast", PyVal.bool true)]
    Option.none [PyVal.str "A", PyVal.none, PyVal.str ""] rfl
  constructor
  · rw [h.1]
    rfl
  · rw [h.2.2 rfl rfl rfl]
    rfl

/-- C10: the `isLast`-inference branch is taken exactly when
`data.get("total")` is `None` (key absent or value `None`) while the
`isLast` key is present with any value; inside it, `total` is the issue
count precisely when the `isLast` value is truthy by Python truthiness
and `-1` otherwise; outside it, `total` is the legacy coercion with `-1`
fallback. -/
theorem c10_isLast_branch (kvs : List (String × PyVal)) (rf : Option PyVal)
    (hne : kvs ≠ []) :
    (((pyGet kvs "total").isNoneVal = true ∧ (lookupKey kvs "isLast").isSome = true) →
      (JiraSearchResult.from_api_response (PyVal.dict kvs) rf).total =
        (if truthy ((lookupKey kvs "isLast").getD (PyVal.bool false)) then
          ((JiraSearchResult.from_api_response (PyVal.dict kvs) rf).issues.length : Int)
        else -1)) ∧
    (¬((pyGet kvs "total").isNoneVal = true ∧ (lookupKey kvs "isLast").isSome = true) →
      (JiraSearchResult.from_api_response (PyVal.dict kvs) rf).total =
        (if (pyGet kvs "total").isNoneVal then -1
         else (pyInt (pyGet kvs "total")).getD (-1))) := by
  rw [from_api_response_dict kvs rf hne]
  constructor
  · intro h
    simp [computeTotal, h.1, h.2]
  · intro h
    simp only [computeTotal]
    rw [if_neg]
    simp only [Bool.and_eq_true]
    intro hcontra
    exact h ⟨hcontra.1, hcontra.2⟩

/-- C10 witness: the non-empty string `"false"` is truthy, so
`{"isLast": "false", "issues": [{...}]}` gets `total = 1`, the issue
count. -/
theorem c10_isLast_branch_witness :
    (JiraSearchResult.from_api_response
        (PyVal.dict [("isLast", PyVal.str "false"),
                     ("issues", PyVal.list [PyVal.dict [("key", PyVal.str "X")]])])
        Option.none).total = 1 := by
  have h := c10_isLast_branch
    [("isLast", PyVal.str "false"),
     ("issues", PyVal.list [PyVal.dict [("key", PyVal.str "X")]])]
    Option.none (List.cons_ne_nil _ _)
  rw [h.1 ⟨rfl, rfl⟩]
  rfl
